import Mathlib

/-!
# Verification of the crapssim bet-resolution and game-state engine

Shallow embedding of `crapssim/bet.py`, `crapssim/table.py`, `crapssim/player.py`
and the bet-movement strategy in `crapssim/strategy.py`.  Python floats are
modelled as exact rationals (ℚ); every payout value appearing below is exactly
representable, and the concrete products checked here round to the same values
in IEEE double.  Statuses are the Python strings "win", "lose", "push" wrapped
in `Option` (`none` is Python `None`).  Exceptions are modelled with
`Except`/`Option` where a claim needs them.
-/

namespace Crapssim

/-- Modelled from the spec: `crapssim/dice.py` is not under `src/`.  The spec's
Dice collaborator exposes the ordered pair of faces and the total (sum of the
two faces). -/
structure Dice where
  die1 : Nat
  die2 : Nat
deriving DecidableEq, Repr

/-- Modelled from the spec: the total of a roll is the sum of the two faces. -/
def Dice.total (d : Dice) : Nat := d.die1 + d.die2

/-- Modelled from the spec: the ordered pair of faces (`Dice.result`). -/
def Dice.result (d : Dice) : List Nat := [d.die1, d.die2]

/-- The point on a craps table (`table.py`, class `Point`): `status` is the
string "On" or "Off", `number` is the point number when On (`None` ↦ `none`). -/
structure Point where
  status : String
  number : Option Nat
deriving DecidableEq, Repr

/-- Source `Point.__init__`: status "Off", number None. -/
def Point.init : Point := ⟨"Off", none⟩

/-- Source `Point.update` (table.py lines 415-429). -/
def Point.update (p : Point) (d : Dice) : Point :=
  if p.status = "Off" ∧ d.total ∈ [4, 5, 6, 8, 9, 10] then
    { p with status := "On", number := some d.total }
  else if p.status = "On" ∧ (d.total = 7 ∨ some d.total = p.number) then
    { p with status := "Off", number := none }
  else p

/-- The Python class of a bet object; used where the source dispatches on the
class (`update_bet` overrides, `isinstance` checks).  `Come` subclasses
`PassLine` and `DontCome` subclasses `DontPass`. -/
inductive BetKind where
  | passLine
  | come
  | odds
  | place
  | dontPass
  | dontCome
  | layOdds
  | hardWay
deriving DecidableEq, Repr

/-- Source `isinstance(b, PassLine)`: true for `PassLine` and its subclass `Come`. -/
def BetKind.instPassLine : BetKind → Bool
  | .passLine => true
  | .come => true
  | _ => false

/-- Source `isinstance(b, Come)`. -/
def BetKind.instCome : BetKind → Bool
  | .come => true
  | _ => false

/-- A bet object (`bet.py`, class `Bet` and its subclasses).  One record holds
the attribute bag; family-specific attributes (`push_numbers`, `pre_point`,
`number`, `winning_result`) default to the values `Bet.__init__` leaves absent
or that the relevant subclass sets.  Equality of two bets is structural
equality of all attributes, mirroring value-style bet identity. -/
structure Bet where
  kind : BetKind
  name : String
  subName : String
  betAmount : ℚ
  winningNumbers : List Nat
  losingNumbers : List Nat
  pushNumbers : List Nat
  payoutRatio : ℚ
  removable : Bool
  canBePlacedPointOn : Bool
  canBePlacedPointOff : Bool
  prePoint : Bool
  number : Option Nat
  winningResult : List Nat
deriving DecidableEq, Repr

/-- Source `Bet.__init__` defaults (bet.py lines 47-56); subclass constructors below
override fields exactly as the corresponding Python `__init__` does. -/
def Bet.base (kind : BetKind) (betAmount : ℚ) : Bet where
  kind := kind
  name := ""
  subName := ""
  betAmount := betAmount
  winningNumbers := []
  losingNumbers := []
  pushNumbers := []
  payoutRatio := 1
  removable := true
  canBePlacedPointOn := true
  canBePlacedPointOff := true
  prePoint := true
  number := none
  winningResult := []

/-- Source `PassLine.__init__`. -/
def mkPassLine (betAmount : ℚ) : Bet :=
  { Bet.base .passLine betAmount with
    name := "PassLine"
    winningNumbers := [7, 11]
    losingNumbers := [2, 3, 12]
    payoutRatio := 1
    prePoint := true
    canBePlacedPointOn := false }

/-- Source `Come.__init__`. -/
def mkCome (betAmount : ℚ) : Bet :=
  { mkPassLine betAmount with
    kind := .come
    name := "Come"
    canBePlacedPointOff := false
    canBePlacedPointOn := true }

/-- Source `DontPass.__init__`. -/
def mkDontPass (betAmount : ℚ) : Bet :=
  { Bet.base .dontPass betAmount with
    name := "DontPass"
    winningNumbers := [2, 3]
    losingNumbers := [7, 11]
    pushNumbers := [12]
    payoutRatio := 1
    prePoint := true
    canBePlacedPointOn := false }

/-- Source `DontCome.__init__`. -/
def mkDontCome (betAmount : ℚ) : Bet :=
  { mkDontPass betAmount with
    kind := .dontCome
    name := "DontCome"
    canBePlacedPointOff := false
    canBePlacedPointOn := true }

/-- Source `Place4.__init__`. -/
def mkPlace4 (betAmount : ℚ) : Bet :=
  { Bet.base .place betAmount with
    name := "Place4", winningNumbers := [4], losingNumbers := [7]
    payoutRatio := 9 / 5 }

/-- Source `Place5.__init__`. -/
def mkPlace5 (betAmount : ℚ) : Bet :=
  { Bet.base .place betAmount with
    name := "Place5", winningNumbers := [5], losingNumbers := [7]
    payoutRatio := 7 / 5 }

/-- Source `Place6.__init__`. -/
def mkPlace6 (betAmount : ℚ) : Bet :=
  { Bet.base .place betAmount with
    name := "Place6", winningNumbers := [6], losingNumbers := [7]
    payoutRatio := 7 / 6 }

/-- Source `Place8.__init__`. -/
def mkPlace8 (betAmount : ℚ) : Bet :=
  { Bet.base .place betAmount with
    name := "Place8", winningNumbers := [8], losingNumbers := [7]
    payoutRatio := 7 / 6 }

/-- Source `Place9.__init__`. -/
def mkPlace9 (betAmount : ℚ) : Bet :=
  { Bet.base .place betAmount with
    name := "Place9", winningNumbers := [9], losingNumbers := [7]
    payoutRatio := 7 / 5 }

/-- Source `Place10.__init__`. -/
def mkPlace10 (betAmount : ℚ) : Bet :=
  { Bet.base .place betAmount with
    name := "Place10", winningNumbers := [10], losingNumbers := [7]
    payoutRatio := 9 / 5 }

/-- Source `Hard4.__init__`. -/
def mkHard4 (betAmount : ℚ) : Bet :=
  { Bet.base .hardWay betAmount with
    name := "Hard4", winningResult := [2, 2], number := some 4, payoutRatio := 7 }

/-- Source `Hard6.__init__`. -/
def mkHard6 (betAmount : ℚ) : Bet :=
  { Bet.base .hardWay betAmount with
    name := "Hard6", winningResult := [3, 3], number := some 6, payoutRatio := 9 }

/-- Source `Hard8.__init__`. -/
def mkHard8 (betAmount : ℚ) : Bet :=
  { Bet.base .hardWay betAmount with
    name := "Hard8", winningResult := [4, 4], number := some 8, payoutRatio := 9 }

/-- Source `Hard10.__init__`. -/
def mkHard10 (betAmount : ℚ) : Bet :=
  { Bet.base .hardWay betAmount with
    name := "Hard10", winningResult := [5, 5], number := some 10, payoutRatio := 7 }

/-- Source `"".join(str(e) for e in ns)` for a list of numbers. -/
def joinNumbers (ns : List Nat) : String :=
  String.join (ns.map toString)

/-- Source `Odds.__init__` (bet.py lines 194-212): raises `TypeError` when the base
bet object is neither a `PassLine` nor a `Come` bet; a `Come` is itself a
`PassLine` instance. -/
def mkOdds (betAmount : ℚ) (betObject : Bet) : Except String Bet :=
  if ¬ betObject.kind.instPassLine ∧ ¬ betObject.kind.instCome then
    .error "bet_object must be either a PassLine or Come Bet."
  else
    .ok { Bet.base .odds betAmount with
      canBePlacedPointOff := !betObject.kind.instPassLine
      name := "Odds"
      subName := joinNumbers betObject.winningNumbers
      winningNumbers := betObject.winningNumbers
      losingNumbers := betObject.losingNumbers
      payoutRatio :=
        if betObject.winningNumbers = [4] ∨ betObject.winningNumbers = [10] then 2
        else if betObject.winningNumbers = [5] ∨ betObject.winningNumbers = [9] then 3 / 2
        else if betObject.winningNumbers = [6] ∨ betObject.winningNumbers = [8] then 6 / 5
        else 1 }

/-- Source `LayOdds.__init__` (bet.py lines 448-460): no type check is performed on
`bet_object`; the constructor always succeeds. -/
def mkLayOdds (betAmount : ℚ) (betObject : Bet) : Bet :=
  { Bet.base .layOdds betAmount with
    name := "LayOdds"
    subName := joinNumbers betObject.losingNumbers
    winningNumbers := betObject.winningNumbers
    losingNumbers := betObject.losingNumbers
    payoutRatio :=
      if betObject.losingNumbers = [4] ∨ betObject.losingNumbers = [10] then 1 / 2
      else if betObject.losingNumbers = [5] ∨ betObject.losingNumbers = [9] then 2 / 3
      else if betObject.losingNumbers = [6] ∨ betObject.losingNumbers = [8] then 5 / 6
      else 1 }

/-- Source `Bet.get_status` (bet.py lines 77-95). -/
def Bet.getStatus (b : Bet) (d : Dice) : Option String :=
  if d.total ∈ b.winningNumbers then some "win"
  else if d.total ∈ b.losingNumbers then some "lose"
  else none

/-- Source `Bet.get_win_amount` (bet.py lines 97-116); `none` is the
`NotImplementedError` branch. -/
def Bet.getWinAmount (b : Bet) (status : Option String) : Option ℚ :=
  if status = none ∨ status = some "lose" then some 0
  else if status = some "win" then some (b.payoutRatio * b.betAmount)
  else none

/-- Source `Bet.update_bet` of the base class: status from `get_status`, win amount
from `get_win_amount`.  `get_status` only produces "win"/"lose"/`None`, so the
`NotImplementedError` branch is unreachable here (`baseUpdate_winAmount_isSome`
below); `getD 0` discharges the `Option`. -/
def Bet.baseUpdate (b : Bet) (d : Dice) : Option String × ℚ :=
  let status := b.getStatus d
  (status, (b.getWinAmount status).getD 0)

theorem baseUpdate_winAmount_isSome (b : Bet) (d : Dice) :
    (b.getWinAmount (b.getStatus d)).isSome := by
  unfold Bet.getWinAmount Bet.getStatus
  by_cases h1 : d.total ∈ b.winningNumbers
  · simp [h1]
  · by_cases h2 : d.total ∈ b.losingNumbers <;> simp [h1, h2]

/-- Source `PassLine.update_bet` (bet.py lines 141-156); shared by `Come` which only
additionally sets `sub_name`.  Returns (status, win amount) and the bet object
after its in-place mutation.  Only `table.dice.total` is read from the table. -/
def passLineUpdate (b : Bet) (total : Nat) : (Option String × ℚ) × Bet :=
  if total ∈ b.winningNumbers then
    ((some "win", b.payoutRatio * b.betAmount), b)
  else if total ∈ b.losingNumbers then
    ((some "lose", 0), b)
  else if b.prePoint then
    ((none, 0),
      { b with winningNumbers := [total], losingNumbers := [7]
               prePoint := false, removable := false })
  else ((none, 0), b)

/-- Source `Come.update_bet` (bet.py lines 174-178): base `PassLine` update, then set
`sub_name` from the winning numbers once past the pre-point phase. -/
def comeUpdate (b : Bet) (total : Nat) : (Option String × ℚ) × Bet :=
  let (r, b') := passLineUpdate b total
  if ¬ b'.prePoint ∧ b'.subName = "" then
    (r, { b' with subName := joinNumbers b'.winningNumbers })
  else (r, b')

/-- Source `DontPass.update_bet` (bet.py lines 394-411).  Note: unlike `PassLine`,
the pre-point transition does not touch `removable`. -/
def dontPassUpdate (b : Bet) (total : Nat) : (Option String × ℚ) × Bet :=
  if total ∈ b.winningNumbers then
    ((some "win", b.payoutRatio * b.betAmount), b)
  else if total ∈ b.losingNumbers then
    ((some "lose", 0), b)
  else if total ∈ b.pushNumbers then
    ((some "push", 0), b)
  else if b.prePoint then
    ((none, 0),
      { b with winningNumbers := [7], losingNumbers := [total]
               pushNumbers := [], prePoint := false })
  else ((none, 0), b)

/-- Source `DontCome.update_bet` (bet.py lines 429-433). -/
def dontComeUpdate (b : Bet) (total : Nat) : (Option String × ℚ) × Bet :=
  let (r, b') := dontPassUpdate b total
  if ¬ b'.prePoint ∧ b'.subName = "" then
    (r, { b' with subName := joinNumbers b'.losingNumbers })
  else (r, b')

/-- Source `HardWay.update_bet` (bet.py lines 620-630): wins exactly on the matched
dice result, loses on a total of 7 or the bet's number (`total in
[self.number, 7]`), otherwise unresolved. -/
def hardWayUpdate (b : Bet) (d : Dice) : (Option String × ℚ) × Bet :=
  if d.result = b.winningResult then
    ((some "win", b.payoutRatio * b.betAmount), b)
  else if b.number = some d.total ∨ d.total = 7 then
    ((some "lose", 0), b)
  else ((none, 0), b)

/-- Source `Bet.update_bet` dispatched on the bet's Python class.  `Place.update_bet`
(bet.py lines 221-225) gates the base update on `table.point == "On"`, which
for a `Point` object compares the status string. -/
def Bet.updateBet (b : Bet) (point : Point) (d : Dice) : (Option String × ℚ) × Bet :=
  match b.kind with
  | .passLine => passLineUpdate b d.total
  | .come => comeUpdate b d.total
  | .dontPass => dontPassUpdate b d.total
  | .dontCome => dontComeUpdate b d.total
  | .place => if point.status = "On" then (b.baseUpdate d, b) else ((none, 0), b)
  | .hardWay => hardWayUpdate b d
  | _ => (b.baseUpdate d, b)

/-- Modelled from the spec: `Player.can_bet` reads `bet.bet_allowed[status]`,
a mapping from the table's point status to an eligibility flag; the `Bet`
revision under `src/` stores the same information as the two flags
`can_be_placed_point_on` / `can_be_placed_point_off` keyed by status "On" /
"Off". -/
def Bet.betAllowed (b : Bet) (pointStatus : String) : Bool :=
  if pointStatus = "On" then b.canBePlacedPointOn else b.canBePlacedPointOff

/-- A player (`player.py`, class `Player`): bankroll and the ordered list of
active bets.  The strategy field is irrelevant to the claims and omitted. -/
structure Player where
  bankroll : ℚ
  betsOnTable : List Bet
deriving DecidableEq, Repr

/-- Source `Player.can_bet` (player.py lines 117-139), for a player seated at a table
whose point has the given status. -/
def Player.canBet (p : Player) (pointStatus : String) (b : Bet) : Bool :=
  b.betAllowed pointStatus && !(p.bankroll < b.betAmount)

/-- Credit `bet.bet_amount += amount` on the first bet matching the given name
and winning numbers (`Player.get_bet` returns the first match). -/
def creditFirstMatch (name : String) (winningNumbers : List Nat) (amount : ℚ) :
    List Bet → List Bet
  | [] => []
  | x :: xs =>
    if x.name = name ∧ x.winningNumbers = winningNumbers then
      { x with betAmount := x.betAmount + amount } :: xs
    else x :: creditFirstMatch name winningNumbers amount xs

/-- Source `Player.has_bet(name=..., winning_numbers=...)` as used by `Player.bet`. -/
def Player.hasBetNamed (p : Player) (name : String) (winningNumbers : List Nat) : Bool :=
  p.betsOnTable.any fun x => x.name = name ∧ x.winningNumbers = winningNumbers

/-- Source `Player.bet` (player.py lines 95-115): silently return when `can_bet` is
false; otherwise deduct the amount and either merge into the first existing
bet with the same name and winning numbers or append the new bet. -/
def Player.placeBet (p : Player) (pointStatus : String) (b : Bet) : Player :=
  if p.canBet pointStatus b = false then p
  else
    let p' : Player := { p with bankroll := p.bankroll - b.betAmount }
    if p'.hasBetNamed b.name b.winningNumbers then
      { p' with betsOnTable := creditFirstMatch b.name b.winningNumbers b.betAmount p'.betsOnTable }
    else
      { p' with betsOnTable := p'.betsOnTable ++ [b] }

/-- Source `Player.remove_bet` (player.py lines 141-152). -/
def Player.removeBet (p : Player) (b : Bet) : Player :=
  if b ∈ p.betsOnTable ∧ b.removable then
    { p with bankroll := p.bankroll + b.betAmount
             betsOnTable := p.betsOnTable.erase b }
  else p

/-- One iteration of the loop in `Player.update_bet` (player.py lines
262-281): resolve one bet against the roll and fold its effect into the
accumulated (bankroll, retained-bet list). -/
def resolveStep (point : Point) (d : Dice) (acc : ℚ × List Bet) (b : Bet) :
    ℚ × List Bet :=
  let ((status, winAmount), b') := b.updateBet point d
  if status = some "win" then (acc.1 + winAmount + b'.betAmount, acc.2)
  else if status = some "lose" then acc
  else if status = some "push" then (acc.1 + b'.betAmount, acc.2)
  else (acc.1, acc.2 ++ [b'])

/-- Source `Player.update_bet` (player.py lines 246-283): fold `resolveStep` over the
player's bets, crediting the bankroll and keeping only unresolved bets. -/
def Player.updateBets (p : Player) (point : Point) (d : Dice) : Player :=
  let (bankroll, bets) := p.betsOnTable.foldl (resolveStep point d) (p.bankroll, [])
  { bankroll := bankroll, betsOnTable := bets }

/-- The bankroll credit a single bet's resolution produces, per the claimed
status cases: win ↦ win amount + original amount, push ↦ original amount,
lose / unresolved ↦ 0. -/
def resolutionCredit (point : Point) (d : Dice) (b : Bet) : ℚ :=
  let ((status, winAmount), b') := b.updateBet point d
  if status = some "win" then winAmount + b'.betAmount
  else if status = some "push" then b'.betAmount
  else 0

/-- The bets a resolution turn retains: exactly the unresolved ones, in their
(possibly internally mutated) post-update form. -/
def retainedBets (point : Point) (d : Dice) (bets : List Bet) : List Bet :=
  bets.filterMap fun b =>
    let ((status, _), b') := b.updateBet point d
    if status = none then some b' else none

theorem comeUpdate_fst (b : Bet) (t : Nat) :
    (comeUpdate b t).1 = (passLineUpdate b t).1 := by
  unfold comeUpdate
  rcases h : passLineUpdate b t with ⟨r, b'⟩
  simp only []
  split <;> rfl

theorem dontComeUpdate_fst (b : Bet) (t : Nat) :
    (dontComeUpdate b t).1 = (dontPassUpdate b t).1 := by
  unfold dontComeUpdate
  rcases h : dontPassUpdate b t with ⟨r, b'⟩
  simp only []
  split <;> rfl

theorem passLineUpdate_status_cases (b : Bet) (t : Nat) :
    (passLineUpdate b t).1.1 = none ∨ (passLineUpdate b t).1.1 = some "win" ∨
    (passLineUpdate b t).1.1 = some "lose" := by
  unfold passLineUpdate
  split_ifs <;> simp

theorem dontPassUpdate_status_cases (b : Bet) (t : Nat) :
    (dontPassUpdate b t).1.1 = none ∨ (dontPassUpdate b t).1.1 = some "win" ∨
    (dontPassUpdate b t).1.1 = some "lose" ∨ (dontPassUpdate b t).1.1 = some "push" := by
  unfold dontPassUpdate
  split_ifs <;> simp

theorem hardWayUpdate_status_cases (b : Bet) (d : Dice) :
    (hardWayUpdate b d).1.1 = none ∨ (hardWayUpdate b d).1.1 = some "win" ∨
    (hardWayUpdate b d).1.1 = some "lose" := by
  unfold hardWayUpdate
  split_ifs <;> simp

theorem baseUpdate_status_cases (b : Bet) (d : Dice) :
    (b.baseUpdate d).1 = none ∨ (b.baseUpdate d).1 = some "win" ∨
    (b.baseUpdate d).1 = some "lose" := by
  unfold Bet.baseUpdate Bet.getStatus
  split_ifs <;> simp

/-- Every status `update_bet` can produce is `None`, "win", "lose" or
"push". -/
theorem updateBet_status_cases (b : Bet) (point : Point) (d : Dice) :
    (b.updateBet point d).1.1 = none ∨ (b.updateBet point d).1.1 = some "win" ∨
    (b.updateBet point d).1.1 = some "lose" ∨ (b.updateBet point d).1.1 = some "push" := by
  unfold Bet.updateBet
  cases b.kind <;> simp only []
  case passLine => rcases passLineUpdate_status_cases b d.total with h | h | h <;> simp [h]
  case come =>
    rw [comeUpdate_fst]
    rcases passLineUpdate_status_cases b d.total with h | h | h <;> simp [h]
  case dontPass => rcases dontPassUpdate_status_cases b d.total with h | h | h | h <;> simp [h]
  case dontCome =>
    rw [dontComeUpdate_fst]
    rcases dontPassUpdate_status_cases b d.total with h | h | h | h <;> simp [h]
  case place =>
    split
    · rcases baseUpdate_status_cases b d with h | h | h <;> simp [h]
    · simp
  case hardWay => rcases hardWayUpdate_status_cases b d with h | h | h <;> simp [h]
  case odds => rcases baseUpdate_status_cases b d with h | h | h <;> simp [h]
  case layOdds => rcases baseUpdate_status_cases b d with h | h | h <;> simp [h]

/-- Only the don't-pass family ever reports a "push". -/
theorem updateBet_push_kind (b : Bet) (point : Point) (d : Dice)
    (h : (b.updateBet point d).1.1 = some "push") :
    b.kind = .dontPass ∨ b.kind = .dontCome := by
  rcases hk : b.kind
  case dontPass => exact Or.inl rfl
  case dontCome => exact Or.inr rfl
  all_goals
    exfalso
    unfold Bet.updateBet at h
    rw [hk] at h
    simp only [] at h
  case passLine => rcases passLineUpdate_status_cases b d.total with h' | h' | h' <;> simp_all
  case come =>
    rw [comeUpdate_fst] at h
    rcases passLineUpdate_status_cases b d.total with h' | h' | h' <;> simp_all
  case place =>
    split at h
    · rcases baseUpdate_status_cases b d with h' | h' | h' <;> simp_all
    · simp_all
  case hardWay => rcases hardWayUpdate_status_cases b d with h' | h' | h' <;> simp_all
  case odds => rcases baseUpdate_status_cases b d with h' | h' | h' <;> simp_all
  case layOdds => rcases baseUpdate_status_cases b d with h' | h' | h' <;> simp_all

/-- Closed form for the resolution loop of `Player.update_bet`: the final
bankroll adds every bet's credit, the retained bets are appended in order. -/
theorem foldl_resolveStep (point : Point) (d : Dice) (bets : List Bet) :
    ∀ (bank : ℚ) (kept : List Bet),
      bets.foldl (resolveStep point d) (bank, kept) =
        (bank + (bets.map (resolutionCredit point d)).sum,
         kept ++ retainedBets point d bets) := by
  induction bets with
  | nil => intro bank kept; simp [retainedBets]
  | cons b bs ih =>
    intro bank kept
    rw [List.foldl_cons, List.map_cons, List.sum_cons]
    have hcases := updateBet_status_cases b point d
    rcases hbd : b.updateBet point d with ⟨⟨st, w⟩, b'⟩
    rw [hbd] at hcases
    simp only at hcases
    have hstep : resolveStep point d (bank, kept) b =
        if st = some "win" then (bank + w + b'.betAmount, kept)
        else if st = some "lose" then (bank, kept)
        else if st = some "push" then (bank + b'.betAmount, kept)
        else (bank, kept ++ [b']) := by
      simp [resolveStep, hbd]
    have hcredit : resolutionCredit point d b =
        if st = some "win" then w + b'.betAmount
        else if st = some "push" then b'.betAmount
        else 0 := by
      simp [resolutionCredit, hbd]
    have hretained : retainedBets point d (b :: bs) =
        (if st = none then b' :: retainedBets point d bs
         else retainedBets point d bs) := by
      simp only [retainedBets, List.filterMap_cons, hbd]
      split <;> simp_all [retainedBets]
    rcases hcases with hst | hst | hst | hst <;>
      subst hst <;>
      simp only [hstep, hcredit, hretained, reduceCtorEq, Option.some.injEq,
        reduceIte, String.reduceEq, if_true, if_false] <;>
      rw [ih] <;>
      rw [Prod.mk.injEq] <;>
      exact ⟨by ring, by simp⟩

structure Table where
  players : List Player
  point : Point
  dice : Dice
  passRolls : Nat
  lastRoll : Option Nat
  nShooters : Nat
  newShooter : Bool
deriving DecidableEq, Repr

/-- Source `Table.fixed_roll` (table.py lines 212-229): set the dice to the chosen
faces and clear `new_shooter`. -/
def Table.fixedRoll (t : Table) (outcome : Dice) : Table :=
  { t with newShooter := false, dice := outcome }

/-- Source `Table.update_player_bets` (table.py lines 282-291): every player resolves
their bets against the table's current dice and point. -/
def Table.updatePlayerBets (t : Table) : Table :=
  { t with players := t.players.map fun p => p.updateBets t.point t.dice }

/-- Source `Table.update_table` (table.py lines 293-313): shooter bookkeeping using
the pre-update point, then `point.update(dice)` and `last_roll`. -/
def Table.updateTable (t : Table) : Table :=
  let passRolls := t.passRolls + 1
  let sevenOut := t.point.status = "On" ∧ t.dice.total = 7
  let pointEnds := t.point.status = "On" ∧
    (t.dice.total = 7 ∨ some t.dice.total = t.point.number)
  { t with
    passRolls := if pointEnds then 0 else passRolls
    newShooter := if sevenOut then true else t.newShooter
    nShooters := if sevenOut then t.nShooters + 1 else t.nShooters
    point := t.point.update t.dice
    lastRoll := some t.dice.total }

/-- Source `Table.fixed_roll_and_update` (table.py lines 179-192): roll, then resolve
all players' bets, then update the table state. -/
def Table.fixedRollAndUpdate (t : Table) (outcome : Dice) : Table :=
  ((t.fixedRoll outcome).updatePlayerBets).updateTable

/-- Modelled from the spec: the `winning_number` attribute of a Place bet in
the bet revision `strategy.py` builds on (absent from `src/`) — the single
fixed number the Place bet wins on, i.e. the head of its winning numbers. -/
def Bet.winningNumber (b : Bet) : Option Nat :=
  b.winningNumbers.head?

/-- Source `PlaceBetAndMove` (strategy.py lines 439-463): starting Place bets, check
bets, and the movement mapping (`None` means remove without replacement).
The Python dict is modelled as an association list in insertion order. -/
structure PlaceBetAndMove where
  startingBets : List Bet
  checkBets : List Bet
  betMovements : List (Bet × Option Bet)

/-- Source `PlaceBetAndMove.check_numbers` (strategy.py lines 480-497): concatenate
the winning numbers of every check bet the player has on the table.
Modelled from the spec: `get_winning_numbers` (absent from `src/`) returns the
bet's current winning numbers. -/
def PlaceBetAndMove.checkNumbers (s : PlaceBetAndMove) (p : Player) : List Nat :=
  (s.checkBets.filter (fun b => b ∈ p.betsOnTable)).foldl
    (fun acc b => acc ++ b.winningNumbers) []

/-- Source `PlaceBetAndMove.bets_to_move` (strategy.py lines 511-525): the movement
keys whose number is among the check numbers and that are on the table. -/
def PlaceBetAndMove.betsToMove (s : PlaceBetAndMove) (p : Player) : List Bet :=
  (s.betMovements.map Prod.fst).filter fun x =>
    (match x.winningNumber with
     | some n => decide (n ∈ s.checkNumbers p)
     | none => false) && decide (x ∈ p.betsOnTable)

/-- Source `self.bet_movements[b]`: association-list lookup; `none` is a `KeyError`. -/
def PlaceBetAndMove.lookupMove (s : PlaceBetAndMove) (b : Bet) : Option (Option Bet) :=
  (s.betMovements.find? fun pr => decide (pr.1 = b)).map Prod.snd

/-- The inner loop of `move_bets`: `while new_bet in player.bets_on_table:
new_bet = self.bet_movements[new_bet]`.  Fuel bounds the loop; `none` means
the Python code would not terminate or would raise `KeyError`.  The result
`some nb` is the final value of `new_bet` (which, in Python, could itself be
`None`). -/
def PlaceBetAndMove.chainResolve (s : PlaceBetAndMove) (bets : List Bet) :
    Option Bet → Nat → Option (Option Bet)
  | none, _ => some none
  | some _, 0 => none
  | some b, fuel + 1 =>
    if b ∈ bets then
      match s.lookupMove b with
      | none => none
      | some nb => s.chainResolve bets nb fuel
    else some (some b)

/-- Source `PlaceBetAndMove.move_bets` (strategy.py lines 527-541): repeatedly take
the first bet that needs to move, resolve its replacement chain against the
current table bets, remove the old bet and place the new one.  Modelled from
the spec: `player.add_bet` (absent from `src/`) is the §4.3 placement
operation, i.e. `Player.bet` of `player.py`.  Fuel bounds the outer loop;
`none` also covers the crash Python would hit on `add_bet(None)`. -/
def PlaceBetAndMove.moveBets (s : PlaceBetAndMove) (pointStatus : String) :
    Player → Nat → Option Player
  | _, 0 => none
  | p, fuel + 1 =>
    match s.betsToMove p with
    | [] => some p
    | old :: _ =>
      match s.lookupMove old with
      | none => none
      | some nb =>
        match s.chainResolve p.betsOnTable nb (fuel + 1) with
        | none => none
        | some none => none
        | some (some newBet) =>
          s.moveBets pointStatus ((p.removeBet old).placeBet pointStatus newBet) fuel

/-- A `Come` bet that has locked onto number `n`: the result of the come
bet's own pre-point phase transition at roll total `n`. -/
def comeLocked (betAmount : ℚ) (n : Nat) : Bet :=
  (comeUpdate (mkCome betAmount) n).2

/-- Source `Place68Move59.__init__` (strategy.py lines 579-605) at its default
amounts: place the 6 and 8 for 6, check the pass line and come bets for 5,
move 6/8 to a Place5 of 5, Place5 to Place9 of 5, Place9 to removal. -/
def place68Move59 : PlaceBetAndMove where
  startingBets := [mkPlace6 6, mkPlace8 6]
  checkBets := [mkPassLine 5, mkPassLine 5, comeLocked 5 6, comeLocked 5 8]
  betMovements := [(mkPlace6 6, some (mkPlace5 5)), (mkPlace8 6, some (mkPlace5 5)),
                   (mkPlace5 5, some (mkPlace9 5)), (mkPlace9 5, none)]

theorem chainResolve_not_on_table (s : PlaceBetAndMove) (bets : List Bet)
    (nb : Option Bet) (fuel : Nat) (b' : Bet)
    (h : s.chainResolve bets nb fuel = some (some b')) : b' ∉ bets := by
  induction fuel generalizing nb with
  | zero =>
    cases nb with
    | none => simp [PlaceBetAndMove.chainResolve] at h
    | some b => simp [PlaceBetAndMove.chainResolve] at h
  | succ fuel ih =>
    cases nb with
    | none => simp [PlaceBetAndMove.chainResolve] at h
    | some b =>
      rw [PlaceBetAndMove.chainResolve] at h
      by_cases hb : b ∈ bets
      · simp only [hb, if_true] at h
        cases hl : s.lookupMove b with
        | none => rw [hl] at h; exact absurd h (by simp)
        | some nb' => rw [hl] at h; exact ih nb' h
      · simp only [hb, if_false] at h
        obtain rfl : b = b' := by simpa using h
        exact hb

/-- Pre-point behaviour of a fresh `PassLine` bet at roll total `t`: 7/11 win,
2/3/12 lose, any point number transitions the win-set to `{t}`, the lose-set
to `{7}` and clears `removable`; `update_bet` dispatches on the dice total. -/
def passLinePrePointFacts (a : ℚ) (t : Nat) : Prop :=
  (∀ (pt : Point) (d : Dice),
    (mkPassLine a).updateBet pt d = passLineUpdate (mkPassLine a) d.total) ∧
  ((t = 7 ∨ t = 11) → (passLineUpdate (mkPassLine a) t).1.1 = some "win" ∧
    (passLineUpdate (mkPassLine a) t).2 = mkPassLine a) ∧
  ((t = 2 ∨ t = 3 ∨ t = 12) → (passLineUpdate (mkPassLine a) t).1.1 = some "lose" ∧
    (passLineUpdate (mkPassLine a) t).2 = mkPassLine a) ∧
  (t ∈ [4, 5, 6, 8, 9, 10] → (passLineUpdate (mkPassLine a) t).1.1 = none ∧
    (passLineUpdate (mkPassLine a) t).2 =
      { mkPassLine a with winningNumbers := [t], losingNumbers := [7]
                          prePoint := false, removable := false })

/-- Pre-point behaviour of a fresh `Come` bet: as `PassLine`, with the
`sub_name` recording the locked number at the transition. -/
def comePrePointFacts (a : ℚ) (t : Nat) : Prop :=
  (∀ (pt : Point) (d : Dice),
    (mkCome a).updateBet pt d = comeUpdate (mkCome a) d.total) ∧
  ((t = 7 ∨ t = 11) → (comeUpdate (mkCome a) t).1.1 = some "win" ∧
    (comeUpdate (mkCome a) t).2 = mkCome a) ∧
  ((t = 2 ∨ t = 3 ∨ t = 12) → (comeUpdate (mkCome a) t).1.1 = some "lose" ∧
    (comeUpdate (mkCome a) t).2 = mkCome a) ∧
  (t ∈ [4, 5, 6, 8, 9, 10] → (comeUpdate (mkCome a) t).1.1 = none ∧
    (comeUpdate (mkCome a) t).2 =
      { mkCome a with winningNumbers := [t], losingNumbers := [7]
                      prePoint := false, removable := false
                      subName := joinNumbers [t] })

/-- Pre-point behaviour of a fresh `DontPass` bet: 2/3 win, 7/11 lose, 12
push, any point number transitions the win-set to `{7}`, the lose-set to
`{t}` and empties the push-set — leaving `removable` at `true`. -/
def dontPassPrePointFacts (a : ℚ) (t : Nat) : Prop :=
  (∀ (pt : Point) (d : Dice),
    (mkDontPass a).updateBet pt d = dontPassUpdate (mkDontPass a) d.total) ∧
  ((t = 2 ∨ t = 3) → (dontPassUpdate (mkDontPass a) t).1.1 = some "win" ∧
    (dontPassUpdate (mkDontPass a) t).2 = mkDontPass a) ∧
  ((t = 7 ∨ t = 11) → (dontPassUpdate (mkDontPass a) t).1.1 = some "lose" ∧
    (dontPassUpdate (mkDontPass a) t).2 = mkDontPass a) ∧
  (t = 12 → (dontPassUpdate (mkDontPass a) t).1.1 = some "push" ∧
    (dontPassUpdate (mkDontPass a) t).2 = mkDontPass a) ∧
  (t ∈ [4, 5, 6, 8, 9, 10] → (dontPassUpdate (mkDontPass a) t).1.1 = none ∧
    (dontPassUpdate (mkDontPass a) t).2 =
      { mkDontPass a with winningNumbers := [7], losingNumbers := [t]
                          pushNumbers := [], prePoint := false } ∧
    (dontPassUpdate (mkDontPass a) t).2.removable = true)

/-- Pre-point behaviour of a fresh `DontCome` bet: as `DontPass`, with the
`sub_name` recording the locked number; `removable` stays `true`. -/
def dontComePrePointFacts (a : ℚ) (t : Nat) : Prop :=
  (∀ (pt : Point) (d : Dice),
    (mkDontCome a).updateBet pt d = dontComeUpdate (mkDontCome a) d.total) ∧
  ((t = 2 ∨ t = 3) → (dontComeUpdate (mkDontCome a) t).1.1 = some "win") ∧
  ((t = 7 ∨ t = 11) → (dontComeUpdate (mkDontCome a) t).1.1 = some "lose") ∧
  (t = 12 → (dontComeUpdate (mkDontCome a) t).1.1 = some "push") ∧
  (t ∈ [4, 5, 6, 8, 9, 10] → (dontComeUpdate (mkDontCome a) t).1.1 = none ∧
    (dontComeUpdate (mkDontCome a) t).2 =
      { mkDontCome a with winningNumbers := [7], losingNumbers := [t]
                          pushNumbers := [], prePoint := false
                          subName := joinNumbers [t] } ∧
    (dontComeUpdate (mkDontCome a) t).2.removable = true)

/-- C1 (counterexample): the claim asserts the wager's removable flag becomes
false at the don't-variant's pre-point transition; resolving a fresh
`DontPass` bet against a roll of (1,3) — the transition at total 4 — leaves
`removable` true. -/
theorem dontPass_transition_keeps_removable :
    (((mkDontPass 5).updateBet Point.init ⟨1, 3⟩).2).removable = true := by
  decide

/-- C1 (amended): for every line bet in its pre-point phase and every roll
total 2-12: PassLine/Come win on 7/11, lose on 2/3/12, and on any point
number become unresolved with win-set `{t}`, lose-set `{7}` and `removable`
false; DontPass/DontCome win on 2/3, lose on 7/11, push on 12, and on any
point number become unresolved with win-set `{7}`, lose-set `{t}`, empty
push-set — their `removable` flag staying true. -/
theorem line_bet_prepoint_resolution (a : ℚ) (t : Nat) (h2 : 2 ≤ t) (h12 : t ≤ 12) :
    passLinePrePointFacts a t ∧ comePrePointFacts a t ∧
    dontPassPrePointFacts a t ∧ dontComePrePointFacts a t := by
  unfold passLinePrePointFacts comePrePointFacts dontPassPrePointFacts dontComePrePointFacts
  refine ⟨⟨fun pt d => rfl, ?_, ?_, ?_⟩, ⟨fun pt d => rfl, ?_, ?_, ?_⟩,
          ⟨fun pt d => rfl, ?_, ?_, ?_, ?_⟩, ⟨fun pt d => rfl, ?_, ?_, ?_, ?_⟩⟩ <;>
    interval_cases t <;>
      simp [passLineUpdate, comeUpdate, dontPassUpdate, dontComeUpdate,
            mkPassLine, mkCome, mkDontPass, mkDontCome, Bet.base, joinNumbers]

/-- C1 (witness): the amended theorem applied at amount 5 and roll total 4. -/
theorem line_bet_prepoint_resolution_witness :
    passLinePrePointFacts 5 4 ∧ comePrePointFacts 5 4 ∧
    dontPassPrePointFacts 5 4 ∧ dontComePrePointFacts 5 4 :=
  line_bet_prepoint_resolution 5 4 (by norm_num) (by norm_num)

/-- C2: `Point.update` establishes the point on 4/5/6/8/9/10 from Off, takes
it down on a 7 or the point number from On, and otherwise leaves the state
unchanged; in particular Off --4--> On(4) --7--> Off, and Off --11--> Off. -/
theorem point_update_transition (p : Point) (d : Dice) :
    (p.status = "Off" → d.total ∈ [4, 5, 6, 8, 9, 10] →
      p.update d = ⟨"On", some d.total⟩) ∧
    (p.status = "On" → (d.total = 7 ∨ some d.total = p.number) →
      p.update d = ⟨"Off", none⟩) ∧
    (p.status = "Off" → d.total ∉ [4, 5, 6, 8, 9, 10] → p.update d = p) ∧
    (p.status = "On" → d.total ≠ 7 → some d.total ≠ p.number → p.update d = p) ∧
    (Point.init.update ⟨1, 3⟩ = ⟨"On", some 4⟩ ∧
      (Point.init.update ⟨1, 3⟩).update ⟨3, 4⟩ = ⟨"Off", none⟩ ∧
      Point.init.update ⟨5, 6⟩ = Point.init) := by
  refine ⟨?_, ?_, ?_, ?_, by decide, by decide, by decide⟩ <;>
    intro h1 h2 <;>
    cases p <;>
    simp_all [Point.update]

/-- C2 (witness): the transition theorem applied to the Off point and a roll
of (2,2). -/
theorem point_update_transition_witness :
    Point.init.update ⟨2, 2⟩ = ⟨"On", some 4⟩ :=
  (point_update_transition Point.init ⟨2, 2⟩).1 rfl (by decide)

/-- C4: `Player.bet` is a silent no-op whenever the amount exceeds the
bankroll or the bet is ineligible for the table's current point status: the
player's bankroll and active bets are returned completely unchanged. -/
theorem bet_rejected_is_noop (p : Player) (pointStatus : String) (b : Bet)
    (h : p.bankroll < b.betAmount ∨ b.betAllowed pointStatus = false) :
    p.placeBet pointStatus b = p := by
  unfold Player.placeBet Player.canBet
  rcases h with h | h <;> simp [h]

/-- C4 (witness): a player with bankroll 3 cannot afford a PassLine bet of 5;
placing it changes nothing. -/
theorem bet_rejected_is_noop_witness :
    Player.placeBet ⟨3, []⟩ "Off" (mkPassLine 5) = ⟨3, []⟩ :=
  bet_rejected_is_noop ⟨3, []⟩ "Off" (mkPassLine 5) (Or.inl (by norm_num [mkPassLine, Bet.base]))

/-- C5: `get_win_amount` pays `payout_ratio * bet_amount` on "win" and 0 on
"lose" or `None`; a Place6 of amount 6 resolved against a roll of (2,4) with
the point On wins 7; a LayOdds of 20 on a don't-pass bet locked on 4 has
payout ratio 1/2 and wins 10; the lay ratios are 1/2 on {4,10}, 2/3 on
{5,9}, 5/6 on {6,8}. -/
theorem payout_correctness :
    (∀ b : Bet, b.getWinAmount (some "win") = some (b.payoutRatio * b.betAmount)) ∧
    (∀ (b : Bet) (st : Option String), st = none ∨ st = some "lose" →
      b.getWinAmount st = some 0) ∧
    ((mkPlace6 6).updateBet ⟨"On", some 4⟩ ⟨2, 4⟩).1 = (some "win", 7) ∧
    (mkLayOdds 20 ((mkDontPass 5).updateBet Point.init ⟨1, 3⟩).2).payoutRatio = 1 / 2 ∧
    (mkLayOdds 20 ((mkDontPass 5).updateBet Point.init ⟨1, 3⟩).2).getWinAmount (some "win")
      = some 10 ∧
    (∀ (a : ℚ) (obj : Bet),
      (obj.losingNumbers = [4] ∨ obj.losingNumbers = [10] →
        (mkLayOdds a obj).payoutRatio = 1 / 2) ∧
      (obj.losingNumbers = [5] ∨ obj.losingNumbers = [9] →
        (mkLayOdds a obj).payoutRatio = 2 / 3) ∧
      (obj.losingNumbers = [6] ∨ obj.losingNumbers = [8] →
        (mkLayOdds a obj).payoutRatio = 5 / 6)) := by
  refine ⟨fun b => by simp [Bet.getWinAmount],
          fun b st h => by rcases h with h | h <;> simp [Bet.getWinAmount, h],
          by norm_num [Bet.updateBet, Bet.baseUpdate, Bet.getStatus, Bet.getWinAmount,
            mkPlace6, Bet.base, Dice.total]; decide,
          by norm_num [mkLayOdds, Bet.base, Bet.updateBet, dontPassUpdate,
            mkDontPass, Dice.total],
          by norm_num [mkLayOdds, Bet.base, Bet.updateBet, dontPassUpdate,
            mkDontPass, Dice.total, Bet.getWinAmount]; decide,
          fun a obj => ?_⟩
  refine ⟨fun h => ?_, fun h => ?_, fun h => ?_⟩ <;>
    rcases h with h | h <;>
    simp [mkLayOdds, Bet.base, h]

/-- C5 (witness): the win-amount law applied to a concrete Place6 bet. -/
theorem payout_correctness_witness :
    (mkPlace6 6).getWinAmount (some "win") = some ((7 : ℚ) / 6 * 6) :=
  payout_correctness.1 (mkPlace6 6)

/-- C7: a hardway bet wins exactly when the dice show its matched pair, loses
exactly when they don't and the total is the bet's number (rolled the easy
way) or 7, and is otherwise unresolved — e.g. Hard6 wins on (3,3), loses on
(2,4) and (2,5), stays unresolved on (2,3): resolution inspects the faces,
not only the total. -/
theorem hardway_resolution :
    (∀ (b : Bet) (d : Dice),
      ((hardWayUpdate b d).1.1 = some "win" ↔ d.result = b.winningResult) ∧
      ((hardWayUpdate b d).1.1 = some "lose" ↔
        d.result ≠ b.winningResult ∧ (b.number = some d.total ∨ d.total = 7)) ∧
      ((hardWayUpdate b d).1.1 = none ↔
        d.result ≠ b.winningResult ∧ ¬(b.number = some d.total ∨ d.total = 7))) ∧
    (∀ (a : ℚ) (pt : Point) (d : Dice),
      (mkHard6 a).updateBet pt d = hardWayUpdate (mkHard6 a) d) ∧
    ((mkHard6 5).updateBet Point.init ⟨3, 3⟩).1.1 = some "win" ∧
    ((mkHard6 5).updateBet Point.init ⟨2, 4⟩).1.1 = some "lose" ∧
    ((mkHard6 5).updateBet Point.init ⟨2, 5⟩).1.1 = some "lose" ∧
    ((mkHard6 5).updateBet Point.init ⟨2, 3⟩).1.1 = none := by
  refine ⟨fun b d => ?_, fun a pt d => rfl, ?_, ?_, ?_, ?_⟩
  · unfold hardWayUpdate
    split_ifs with h1 h2 <;> simp_all
  all_goals
    simp [Bet.updateBet, hardWayUpdate, mkHard6, Bet.base, Dice.result, Dice.total]

/-- C8 (counterexample): the claim asserts `LayOdds` raises at construction
for a bet object that is not a don't-line bet; constructing `LayOdds` on a
`PassLine` bet raises nothing and yields an ordinary LayOdds wager (with the
default payout ratio, since the pass line's losing numbers match no lay
entry). -/
theorem layodds_accepts_passline :
    (mkLayOdds 5 (mkPassLine 5)).name = "LayOdds" ∧
    (mkLayOdds 5 (mkPassLine 5)).winningNumbers = [7, 11] ∧
    (mkLayOdds 5 (mkPassLine 5)).losingNumbers = [2, 3, 12] ∧
    (mkLayOdds 5 (mkPassLine 5)).payoutRatio = 1 := by
  norm_num [mkLayOdds, mkPassLine, Bet.base]

/-- C8 (amended): `Odds.__init__` raises `TypeError` exactly when the base
bet object is neither a `PassLine` nor a `Come` instance, before any game
state is touched; `LayOdds.__init__` performs no type validation and always
constructs the bet. -/
theorem odds_construction_validation :
    (∀ (a : ℚ) (obj : Bet),
      (∃ e, mkOdds a obj = .error e) ↔
        obj.kind.instPassLine = false ∧ obj.kind.instCome = false) ∧
    (∀ (a : ℚ) (obj : Bet), (mkLayOdds a obj).name = "LayOdds") ∧
    (∃ e, mkOdds 5 (mkPlace6 6) = .error e) := by
  refine ⟨fun a obj => ?_, fun a obj => rfl, ?_⟩
  · unfold mkOdds
    split_ifs with h <;> simp_all
  · exact ⟨_, rfl⟩

/-- C10: `get_win_amount` hits its `NotImplementedError` branch exactly when
the status is neither `None` nor "win" nor "lose" — in particular on "push";
the only source of a "push" status is the don't-pass family's overridden
`update_bet`, which reports it with a win amount of 0 (concretely, a fresh
DontPass bet on boxcars), and the player's resolution step is what refunds
the original amount on a push. -/
theorem get_win_amount_raises (b : Bet) (st : Option String) :
    (b.getWinAmount st = none ↔ ¬(st = none ∨ st = some "win" ∨ st = some "lose")) ∧
    (∀ (b' : Bet) (pt : Point) (d : Dice), (b'.updateBet pt d).1.1 = some "push" →
      b'.kind = .dontPass ∨ b'.kind = .dontCome) ∧
    ((mkDontPass 5).updateBet Point.init ⟨6, 6⟩).1 = (some "push", 0) ∧
    (∀ (pt : Point) (d : Dice) (acc : ℚ × List Bet) (b' : Bet),
      (b'.updateBet pt d).1.1 = some "push" →
      resolveStep pt d acc b' = (acc.1 + (b'.updateBet pt d).2.betAmount, acc.2)) := by
  refine ⟨?_, updateBet_push_kind, by decide, fun pt d acc b' h => ?_⟩
  · unfold Bet.getWinAmount
    by_cases h1 : st = none
    · subst h1; simp
    · by_cases h2 : st = some "lose"
      · subst h2; simp
      · by_cases h3 : st = some "win"
        · subst h3; simp
        · simp [h1, h2, h3]
  · rcases hbd : b'.updateBet pt d with ⟨⟨s, w⟩, b''⟩
    rw [hbd] at h
    simp only at h
    subst h
    simp [resolveStep, hbd]

/-- C10 (witness): the push-refund conjunct applied to a fresh DontPass bet
resolving boxcars from an empty accumulator. -/
theorem get_win_amount_raises_witness :
    resolveStep Point.init ⟨6, 6⟩ (0, []) (mkDontPass 5) =
      (0 + ((mkDontPass 5).updateBet Point.init ⟨6, 6⟩).2.betAmount, []) :=
  (get_win_amount_raises (mkDontPass 5) (some "push")).2.2.2
    Point.init ⟨6, 6⟩ (0, []) (mkDontPass 5) (by decide)

/-- C3: resolving a turn credits the bankroll with win amount + original
amount for each "win", nothing for each "lose", the original amount for each
"push", and retains exactly the unresolved wagers; on a single wager each
status case acts as claimed (wager dropped on win/lose/push, kept on
`None`). -/
theorem player_resolution_by_status (p : Player) (point : Point) (d : Dice) :
    ((p.updateBets point d).bankroll =
      p.bankroll + (p.betsOnTable.map (resolutionCredit point d)).sum ∧
     (p.updateBets point d).betsOnTable = retainedBets point d p.betsOnTable) ∧
    (∀ b : Bet,
      ((b.updateBet point d).1.1 = some "win" →
        Player.updateBets ⟨p.bankroll, [b]⟩ point d =
          ⟨p.bankroll + (b.updateBet point d).1.2 + (b.updateBet point d).2.betAmount, []⟩) ∧
      ((b.updateBet point d).1.1 = some "lose" →
        Player.updateBets ⟨p.bankroll, [b]⟩ point d = ⟨p.bankroll, []⟩) ∧
      ((b.updateBet point d).1.1 = some "push" →
        Player.updateBets ⟨p.bankroll, [b]⟩ point d =
          ⟨p.bankroll + (b.updateBet point d).2.betAmount, []⟩) ∧
      ((b.updateBet point d).1.1 = none →
        Player.updateBets ⟨p.bankroll, [b]⟩ point d =
          ⟨p.bankroll, [(b.updateBet point d).2]⟩)) := by
  have hfold := foldl_resolveStep point d p.betsOnTable p.bankroll []
  refine ⟨⟨?_, ?_⟩, fun b => ?_⟩
  · simp [Player.updateBets, hfold]
  · simp [Player.updateBets, hfold]
  · rcases hbd : b.updateBet point d with ⟨⟨st, w⟩, b'⟩
    refine ⟨fun hst => ?_, fun hst => ?_, fun hst => ?_, fun hst => ?_⟩ <;>
      simp only at hst <;>
      subst hst <;>
      simp [Player.updateBets, resolveStep, hbd]

/-- C3 (witness): a lone pre-point PassLine bet resolving a natural 7. -/
theorem player_resolution_by_status_witness :
    Player.updateBets ⟨10, [mkPassLine 5]⟩ Point.init ⟨3, 4⟩ =
      ⟨10 + ((mkPassLine 5).updateBet Point.init ⟨3, 4⟩).1.2 +
        ((mkPassLine 5).updateBet Point.init ⟨3, 4⟩).2.betAmount, []⟩ :=
  ((player_resolution_by_status ⟨10, []⟩ Point.init ⟨3, 4⟩).2 (mkPassLine 5)).1 (by decide)

/-- C6: within a turn, `fixed_roll_and_update` resolves every player's
wagers against the pre-update point and only afterwards applies the point
transition for the roll; concretely, a Place6 wager rolled (3,3) while the
point is Off stays unresolved and retained (no credit) even though the
resulting table point is On(6). -/
theorem resolution_before_point_update (t : Table) (outcome : Dice) :
    ((t.fixedRollAndUpdate outcome).players =
      t.players.map (fun p => p.updateBets t.point outcome) ∧
     (t.fixedRollAndUpdate outcome).point = t.point.update outcome) ∧
    ((Table.fixedRollAndUpdate
        ⟨[⟨100, [mkPlace6 6]⟩], Point.init, ⟨1, 1⟩, 0, none, 1, true⟩ ⟨3, 3⟩).players =
      [⟨100, [mkPlace6 6]⟩] ∧
     (Table.fixedRollAndUpdate
        ⟨[⟨100, [mkPlace6 6]⟩], Point.init, ⟨1, 1⟩, 0, none, 1, true⟩ ⟨3, 3⟩).point =
      ⟨"On", some 6⟩) := by
  refine ⟨⟨rfl, rfl⟩, ?_, ?_⟩ <;>
    simp [Table.fixedRollAndUpdate, Table.fixedRoll, Table.updatePlayerBets,
      Table.updateTable, Player.updateBets, resolveStep, Bet.updateBet,
      Point.update, Point.init, Dice.total, mkPlace6, Bet.base]

/-- C9: the replacement-chain loop of `move_bets` only ever lands on a wager
that is not already in the player's active set; and in the spec's scenario —
Place6(6) and Place8(6) active with a Come bet locked on 6 — the
`Place68Move59` movement removes Place6(6) and adds Place5(5) exactly once,
while with a Place5(5) already on the table the chain skips to Place9(5) and
no duplicate Place5 is created. -/
theorem place_bet_and_move_correct :
    (∀ (s : PlaceBetAndMove) (bets : List Bet) (nb : Option Bet) (fuel : Nat) (b' : Bet),
      s.chainResolve bets nb fuel = some (some b') → b' ∉ bets) ∧
    place68Move59.moveBets "On" ⟨100, [mkPlace6 6, mkPlace8 6, comeLocked 5 6]⟩ 10 =
      some ⟨101, [mkPlace8 6, comeLocked 5 6, mkPlace5 5]⟩ ∧
    [mkPlace8 6, comeLocked 5 6, mkPlace5 5].count (mkPlace5 5) = 1 ∧
    place68Move59.moveBets "On" ⟨100, [mkPlace6 6, mkPlace8 6, comeLocked 5 6, mkPlace5 5]⟩ 10 =
      some ⟨101, [mkPlace8 6, comeLocked 5 6, mkPlace5 5, mkPlace9 5]⟩ ∧
    [mkPlace8 6, comeLocked 5 6, mkPlace5 5, mkPlace9 5].count (mkPlace5 5) = 1 := by
  refine ⟨chainResolve_not_on_table, ?_, ?_, ?_, ?_⟩
  · norm_num [place68Move59, PlaceBetAndMove.moveBets, PlaceBetAndMove.betsToMove,
      PlaceBetAndMove.checkNumbers, PlaceBetAndMove.lookupMove, PlaceBetAndMove.chainResolve,
      Player.removeBet, Player.placeBet, Player.canBet, Player.hasBetNamed, creditFirstMatch,
      Bet.betAllowed, Bet.winningNumber, comeLocked, comeUpdate, passLineUpdate,
      mkCome, mkPassLine, mkPlace5, mkPlace6, mkPlace8, mkPlace9, Bet.base, joinNumbers,
      List.find?, List.filter]
  · simp [List.count_cons, beq_iff_eq, comeLocked, comeUpdate, passLineUpdate,
      mkCome, mkPassLine, mkPlace5, mkPlace8, Bet.base, joinNumbers]
  · norm_num [place68Move59, PlaceBetAndMove.moveBets, PlaceBetAndMove.betsToMove,
      PlaceBetAndMove.checkNumbers, PlaceBetAndMove.lookupMove, PlaceBetAndMove.chainResolve,
      Player.removeBet, Player.placeBet, Player.canBet, Player.hasBetNamed, creditFirstMatch,
      Bet.betAllowed, Bet.winningNumber, comeLocked, comeUpdate, passLineUpdate,
      mkCome, mkPassLine, mkPlace5, mkPlace6, mkPlace8, mkPlace9, Bet.base, joinNumbers,
      List.find?, List.filter]
  · simp [List.count_cons, beq_iff_eq, comeLocked, comeUpdate, passLineUpdate,
      mkCome, mkPassLine, mkPlace5, mkPlace8, mkPlace9, Bet.base, joinNumbers]

/-- C9 (witness): the no-duplicate chain property applied to a one-step
chain landing on a Place5 not yet on the table. -/
theorem place_bet_and_move_correct_witness :
    mkPlace5 5 ∉ [mkPlace6 6] :=
  place_bet_and_move_correct.1 place68Move59 [mkPlace6 6] (some (mkPlace5 5)) 3 (mkPlace5 5)
    (by simp [PlaceBetAndMove.chainResolve, mkPlace5, mkPlace6, Bet.base])

end Crapssim
